import Mathlib

/-!
Shallow embedding of the M-Pesa tutorial client (Go) for verification.

The embedded functions mirror, statement by statement, the Go source:
the `Mpesa` app (`NewMpesa`, `makeRequest`, `generateAccessToken`,
`setupHttpRequestWithAuth`, `InitiateSTKPushRequest`, `InitiateB2CRequest`,
`GenerateSecurityCredentials`) and the callback HTTP server handlers
(`stkPushCallbackHandler`, `b2cRequestCallbackHandler`).

Modelling conventions:
- Go errors are carried as strings (`GoError`); the source only ever tests
  them against nil and propagates them unchanged.
- The HTTP transport is an explicit oracle: a pure function from the issued
  request to its result (network failure, body-read failure, or a status
  plus a body).  A `Net` state records every request issued, in order, so
  that request counts and traces are provable facts.
- JSON wire bodies are abstract JSON values (`JValue`) or a `malformed`
  marker; `encoding/json` unmarshalling into the concrete Go structs is
  embedded field by field with Go semantics: absent field or JSON null
  leaves the zero value, a type mismatch is an error, unknown fields are
  ignored, the last duplicate key wins, and a top-level JSON null leaves
  the whole zero struct.  JSON numbers are modelled as integers; no claim
  depends on fractional values.
-/

namespace MpesaGo

/-- Go error values, as carried through `(T, error)` returns. -/
abbrev GoError := String

/-- Abstract JSON values as they travel on the wire. -/
inductive JValue where
  | jnull : JValue
  | jbool : Bool → JValue
  | jnum : Int → JValue
  | jstr : String → JValue
  | jarr : List JValue → JValue
  | jobj : List (String × JValue) → JValue
deriving Repr

/-- A transported HTTP body: either a parsed JSON value or malformed bytes. -/
inductive Body where
  | json : JValue → Body
  | malformed : String → Body
deriving Repr

/-- The last binding of key `k` in a JSON object, as Go's decoder applies
duplicate keys in order so the last one wins. -/
def lookupField (fields : List (String × JValue)) (k : String) : Option JValue :=
  match fields with
  | [] => none
  | (k1, v1) :: rest =>
    match lookupField rest k with
    | some v => some v
    | none => if k1 = k then some v1 else none

/-- Unmarshal one `string`-typed struct field: absent or null keeps the zero
value, a string is taken, anything else is a type error. -/
def strField (fields : List (String × JValue)) (k : String) : Except GoError String :=
  match lookupField fields k with
  | none => Except.ok ""
  | some JValue.jnull => Except.ok ""
  | some (JValue.jstr s) => Except.ok s
  | some _ => Except.error ("json: cannot unmarshal value into string field " ++ k)

/-- Unmarshal one `int`-typed struct field with the same Go semantics. -/
def intField (fields : List (String × JValue)) (k : String) : Except GoError Int :=
  match lookupField fields k with
  | none => Except.ok 0
  | some JValue.jnull => Except.ok 0
  | some (JValue.jnum n) => Except.ok n
  | some _ => Except.error ("json: cannot unmarshal value into int field " ++ k)

/-- Unmarshal one `interface` dynamic field: any JSON value is accepted,
absence keeps the zero value (nil, modelled as JSON null). -/
def anyField (fields : List (String × JValue)) (k : String) : JValue :=
  match lookupField fields k with
  | none => JValue.jnull
  | some v => v

/-- MpesaAccessTokenResponse is the response sent back by Safaricom when we
make a request to generate a token. -/
structure MpesaAccessTokenResponse where
  accessToken : String
  expiresIn : String
  requestID : String
  errorCode : String
  errorMessage : String
deriving DecidableEq, Repr

/-- STKPushRequestBody is the body with the parameters to be used to initiate
an STK push request. -/
structure STKPushRequestBody where
  businessShortCode : String
  password : String
  timestamp : String
  transactionType : String
  amount : String
  partyA : String
  partyB : String
  phoneNumber : String
  callBackURL : String
  accountReference : String
  transactionDesc : String
deriving DecidableEq, Repr

/-- STKPushRequestResponse is the response sent back after initiating an STK
push request. -/
structure STKPushRequestResponse where
  merchantRequestID : String
  checkoutRequestID : String
  responseCode : String
  responseDescription : String
  customerMessage : String
  requestID : String
  errorCode : String
  errorMessage : String
deriving DecidableEq, Repr

/-- B2CRequestBody is the body with the parameters to be used to initiate a
B2C request. -/
structure B2CRequestBody where
  initiatorName : String
  securityCredential : String
  commandID : String
  amount : String
  partyA : String
  partyB : String
  remarks : String
  queueTimeOutURL : String
  resultURL : String
  occassion : String
deriving DecidableEq, Repr

/-- B2CRequestResponse is the response sent back after initiating a B2C
request. -/
structure B2CRequestResponse where
  conversationID : String
  originatorConversationID : String
  responseCode : String
  responseDescription : String
  requestID : String
  errorCode : String
  errorMessage : String
deriving DecidableEq, Repr

/-- Unmarshal of a `MpesaAccessTokenResponse` body per `encoding/json`. -/
def unmarshalAccessToken : Body → Except GoError MpesaAccessTokenResponse
  | Body.malformed raw => Except.error ("invalid character in " ++ raw)
  | Body.json JValue.jnull => Except.ok ⟨"", "", "", "", ""⟩
  | Body.json (JValue.jobj fs) => do
    let a ← strField fs "access_token"
    let e ← strField fs "expires_in"
    let r ← strField fs "requestId"
    let c ← strField fs "errorCode"
    let m ← strField fs "errorMessage"
    Except.ok ⟨a, e, r, c, m⟩
  | Body.json _ => Except.error "json: cannot unmarshal value into MpesaAccessTokenResponse"

/-- Unmarshal of a `STKPushRequestResponse` body per `encoding/json`. -/
def unmarshalSTKPushResponse : Body → Except GoError STKPushRequestResponse
  | Body.malformed raw => Except.error ("invalid character in " ++ raw)
  | Body.json JValue.jnull => Except.ok ⟨"", "", "", "", "", "", "", ""⟩
  | Body.json (JValue.jobj fs) => do
    let mr ← strField fs "MerchantRequestID"
    let co ← strField fs "CheckoutRequestID"
    let rc ← strField fs "ResponseCode"
    let rd ← strField fs "ResponseDescription"
    let cm ← strField fs "CustomerMessage"
    let ri ← strField fs "requestId"
    let ec ← strField fs "errorCode"
    let em ← strField fs "errorMessage"
    Except.ok ⟨mr, co, rc, rd, cm, ri, ec, em⟩
  | Body.json _ => Except.error "json: cannot unmarshal value into STKPushRequestResponse"

/-- Unmarshal of a `B2CRequestResponse` body per `encoding/json`. -/
def unmarshalB2CResponse : Body → Except GoError B2CRequestResponse
  | Body.malformed raw => Except.error ("invalid character in " ++ raw)
  | Body.json JValue.jnull => Except.ok ⟨"", "", "", "", "", "", ""⟩
  | Body.json (JValue.jobj fs) => do
    let cid ← strField fs "ConversationID"
    let oid ← strField fs "OriginatorConversationID"
    let rc ← strField fs "ResponseCode"
    let rd ← strField fs "ResponseDescription"
    let ri ← strField fs "requestId"
    let ec ← strField fs "errorCode"
    let em ← strField fs "errorMessage"
    Except.ok ⟨cid, oid, rc, rd, ri, ec, em⟩
  | Body.json _ => Except.error "json: cannot unmarshal value into B2CRequestResponse"

/-- Serialization of a `STKPushRequestBody` by `json.Marshal`; marshalling a
struct of plain strings cannot fail. -/
def marshalSTKPushRequestBody (b : STKPushRequestBody) : JValue :=
  JValue.jobj
    [("BusinessShortCode", JValue.jstr b.businessShortCode),
     ("Password", JValue.jstr b.password),
     ("Timestamp", JValue.jstr b.timestamp),
     ("TransactionType", JValue.jstr b.transactionType),
     ("Amount", JValue.jstr b.amount),
     ("PartyA", JValue.jstr b.partyA),
     ("PartyB", JValue.jstr b.partyB),
     ("PhoneNumber", JValue.jstr b.phoneNumber),
     ("CallBackURL", JValue.jstr b.callBackURL),
     ("AccountReference", JValue.jstr b.accountReference),
     ("TransactionDesc", JValue.jstr b.transactionDesc)]

/-- Serialization of a `B2CRequestBody` by `json.Marshal`. -/
def marshalB2CRequestBody (b : B2CRequestBody) : JValue :=
  JValue.jobj
    [("InitiatorName", JValue.jstr b.initiatorName),
     ("SecurityCredential", JValue.jstr b.securityCredential),
     ("CommandID", JValue.jstr b.commandID),
     ("Amount", JValue.jstr b.amount),
     ("PartyA", JValue.jstr b.partyA),
     ("PartyB", JValue.jstr b.partyB),
     ("Remarks", JValue.jstr b.remarks),
     ("QueueTimeOutURL", JValue.jstr b.queueTimeOutURL),
     ("ResultURL", JValue.jstr b.resultURL),
     ("Occassion", JValue.jstr b.occassion)]

/-- An outbound HTTP request as the Go code assembles it.  `basicAuth`
records a `req.SetBasicAuth` call (Go stores it as a base64 Authorization
header; only the credential pair is observable to these claims). -/
structure HttpRequest where
  method : String
  url : String
  headers : List (String × String)
  basicAuth : Option (String × String)
  body : Option JValue
deriving Repr

/-- Result of one transport exchange: transport failure from `client.Do`,
a body-read failure from `io.ReadAll`, or a status code with a body. -/
inductive HttpResult where
  | networkError : String → HttpResult
  | readError : Nat → String → HttpResult
  | success : Nat → Body → HttpResult
deriving Repr

/-- Header.Set semantics: replace every binding of the key, else append. -/
def setHeaderList (hs : List (String × String)) (k v : String) : List (String × String) :=
  if hs.any (fun p => p.1 = k) then
    hs.map (fun p => if p.1 = k then (k, v) else p)
  else
    hs ++ [(k, v)]

/-- The request constructor `http.NewRequest`; with the constant methods and
printf-built URLs of this code it cannot fail. -/
def newRequest (method url : String) (body : Option JValue) : HttpRequest :=
  ⟨method, url, [], none, body⟩

/-- The mutation performed by `req.Header.Set(k, v)`. -/
def HttpRequest.setHeader (r : HttpRequest) (k v : String) : HttpRequest :=
  { r with headers := setHeaderList r.headers k v }

/-- The mutation performed by `req.SetBasicAuth(user, pass)`. -/
def HttpRequest.setBasicAuth (r : HttpRequest) (user pass : String) : HttpRequest :=
  { r with basicAuth := some (user, pass) }

/-- The transport: an oracle answering each request, plus the trace of
requests issued so far (most recent last). -/
structure Net where
  oracle : HttpRequest → HttpResult
  sent : List HttpRequest

/-- Issue one request on the wire and record it in the trace. -/
def Net.send (n : Net) (req : HttpRequest) : HttpResult × Net :=
  (n.oracle req, { n with sent := n.sent ++ [req] })

/-- One nanosecond-denominated second, as Go's `time.Second`. -/
def timeSecond : Int := 1000000000

/-- The `http.Client` as far as the code configures it: only its timeout. -/
structure HttpClient where
  timeout : Int
deriving DecidableEq, Repr

/-- Mpesa is an application that will be making a transaction. -/
structure Mpesa where
  consumerKey : String
  consumerSecret : String
  baseURL : String
  client : HttpClient
deriving DecidableEq, Repr

/-- MpesaOpts stores all the configuration keys we need to set up a Mpesa
app. -/
structure MpesaOpts where
  consumerKey : String
  consumerSecret : String
  baseURL : String
deriving DecidableEq, Repr

/-- NewMpesa sets up and returns an instance of Mpesa. -/
def NewMpesa (m : MpesaOpts) : Mpesa :=
  let client : HttpClient := ⟨10 * timeSecond⟩
  ⟨m.consumerKey, m.consumerSecret, m.baseURL, client⟩

/-- makeRequest performs all the http requests for the specific app: it sends
the request, reads the whole body, and returns the bytes.  The HTTP status
code is dropped, exactly as in the source. -/
def Mpesa.makeRequest (_ : Mpesa) (req : HttpRequest) (n : Net) :
    Except GoError Body × Net :=
  let (res, n1) := n.send req
  match res with
  | HttpResult.networkError e => (Except.error e, n1)
  | HttpResult.readError _ e => (Except.error e, n1)
  | HttpResult.success _ body => (Except.ok body, n1)

/-- The GET request that `generateAccessToken` assembles before sending. -/
def tokenRequest (m : Mpesa) : HttpRequest :=
  let url := m.baseURL ++ "/oauth/v1/generate?grant_type=client_credentials"
  let req := newRequest "GET" url none
  let req := req.setBasicAuth m.consumerKey m.consumerSecret
  req.setHeader "Content-Type" "application/json"

/-- generateAccessToken sends a http request to generate a new access
token. -/
def Mpesa.generateAccessToken (m : Mpesa) (n : Net) :
    Except GoError MpesaAccessTokenResponse × Net :=
  let req := tokenRequest m
  let (resp, n1) := m.makeRequest req n
  match resp with
  | Except.error e => (Except.error e, n1)
  | Except.ok body =>
    match unmarshalAccessToken body with
    | Except.error e => (Except.error e, n1)
    | Except.ok tok => (Except.ok tok, n1)

/-- setupHttpRequestWithAuth is a helper method aimed to create a http
request adding the Authorization Bearer header with the access token for the
Mpesa app. -/
def Mpesa.setupHttpRequestWithAuth (m : Mpesa) (method url : String)
    (body : Option JValue) (n : Net) : Except GoError HttpRequest × Net :=
  let req := newRequest method url body
  let (tokRes, n1) := m.generateAccessToken n
  match tokRes with
  | Except.error e => (Except.error e, n1)
  | Except.ok tok =>
    let req := req.setHeader "Content-Type" "application/json"
    let req := req.setHeader "Authorization" ("Bearer " ++ tok.accessToken)
    (Except.ok req, n1)

/-- The same request-assembly steps that `InitiateSTKPushRequest` performs
inline between building the URL and calling `makeRequest`, abstracted over
the URL and marshalled body so it can be compared with
`setupHttpRequestWithAuth`: build the POST request, fetch a token, set the
Content-Type and Authorization Bearer headers. -/
def Mpesa.stkInlineRequestSetup (m : Mpesa) (url : String)
    (body : Option JValue) (n : Net) : Except GoError HttpRequest × Net :=
  let req := newRequest "POST" url body
  let (tokRes, n1) := m.generateAccessToken n
  match tokRes with
  | Except.error e => (Except.error e, n1)
  | Except.ok tok =>
    let req := req.setHeader "Content-Type" "application/json"
    let req := req.setHeader "Authorization" ("Bearer " ++ tok.accessToken)
    (Except.ok req, n1)

/-- The authenticated POST that `InitiateSTKPushRequest` hands to
`makeRequest`, given the token-fetch result `tok`. -/
def stkRequest (m : Mpesa) (b : STKPushRequestBody)
    (tok : MpesaAccessTokenResponse) : HttpRequest :=
  let url := m.baseURL ++ "/mpesa/stkpush/v1/processrequest"
  let req := newRequest "POST" url (some (marshalSTKPushRequestBody b))
  let req := req.setHeader "Content-Type" "application/json"
  req.setHeader "Authorization" ("Bearer " ++ tok.accessToken)

/-- InitiateSTKPushRequest makes a http request performing an STK push
request. -/
def Mpesa.InitiateSTKPushRequest (m : Mpesa) (body : STKPushRequestBody)
    (n : Net) : Except GoError STKPushRequestResponse × Net :=
  let url := m.baseURL ++ "/mpesa/stkpush/v1/processrequest"
  let requestBody := marshalSTKPushRequestBody body
  let req := newRequest "POST" url (some requestBody)
  let (tokRes, n1) := m.generateAccessToken n
  match tokRes with
  | Except.error e => (Except.error e, n1)
  | Except.ok tok =>
    let req := req.setHeader "Content-Type" "application/json"
    let req := req.setHeader "Authorization" ("Bearer " ++ tok.accessToken)
    let (resp, n2) := m.makeRequest req n1
    match resp with
    | Except.error e => (Except.error e, n2)
    | Except.ok b =>
      match unmarshalSTKPushResponse b with
      | Except.error e => (Except.error e, n2)
      | Except.ok r => (Except.ok r, n2)

/-- The authenticated POST that `InitiateB2CRequest` hands to `makeRequest`,
given the token-fetch result `tok`. -/
def b2cRequest (m : Mpesa) (b : B2CRequestBody)
    (tok : MpesaAccessTokenResponse) : HttpRequest :=
  let url := m.baseURL ++ "/mpesa/b2c/v1/paymentrequest"
  let req := newRequest "POST" url (some (marshalB2CRequestBody b))
  let req := req.setHeader "Content-Type" "application/json"
  req.setHeader "Authorization" ("Bearer " ++ tok.accessToken)

/-- InitiateB2CRequest makes a http request performing a B2C payment
request. -/
def Mpesa.InitiateB2CRequest (m : Mpesa) (body : B2CRequestBody) (n : Net) :
    Except GoError B2CRequestResponse × Net :=
  let url := m.baseURL ++ "/mpesa/b2c/v1/paymentrequest"
  let requestBody := marshalB2CRequestBody body
  let (reqRes, n1) := m.setupHttpRequestWithAuth "POST" url (some requestBody) n
  match reqRes with
  | Except.error e => (Except.error e, n1)
  | Except.ok req =>
    let (resp, n2) := m.makeRequest req n1
    match resp with
    | Except.error e => (Except.error e, n2)
    | Except.ok b =>
      match unmarshalB2CResponse b with
      | Except.error e => (Except.error e, n2)
      | Except.ok r => (Except.ok r, n2)

/-- One entry of `CallbackMetadata.Item` in the STK push callback; `Value`
is a dynamically typed field and stays an abstract JSON value. -/
structure StkCallbackMetadataItem where
  name : String
  value : JValue
deriving Repr

/-- The `CallbackMetadata` part of the STK push callback. -/
structure StkCallbackMetadata where
  item : List StkCallbackMetadataItem
deriving Repr

/-- The `stkCallback` part of the STK push callback. -/
structure StkCallback where
  merchantRequestID : String
  checkoutRequestID : String
  resultCode : Int
  resultDesc : String
  callbackMetadata : StkCallbackMetadata
deriving Repr

/-- The `Body` wrapper of the STK push callback. -/
structure STKPushCallbackBody where
  stkCallback : StkCallback
deriving Repr

/-- STKPushCallbackResponse has the results of the callback data sent once we
successfully make an STK push request. -/
structure STKPushCallbackResponse where
  body : STKPushCallbackBody
deriving Repr

/-- One entry of `ResultParameters.ResultParameter` in the B2C callback. -/
structure B2CResultParameter where
  key : String
  value : JValue
deriving Repr

/-- The `ResultParameters` part of the B2C callback. -/
structure B2CResultParameters where
  resultParameter : List B2CResultParameter
deriving Repr

/-- The `ReferenceData.ReferenceItem` part of the B2C callback. -/
structure B2CReferenceItem where
  key : String
  value : String
deriving Repr

/-- The `ReferenceData` part of the B2C callback. -/
structure B2CReferenceData where
  referenceItem : B2CReferenceItem
deriving Repr

/-- The `Result` part of the B2C callback. -/
structure B2CResult where
  resultType : Int
  resultCode : Int
  resultDesc : String
  originatorConversationID : String
  conversationID : String
  transactionID : String
  resultParameters : B2CResultParameters
  referenceData : B2CReferenceData
deriving Repr

/-- B2CCallbackResponse has the results of the callback data sent once we
successfully make a B2C request. -/
structure B2CCallbackResponse where
  result : B2CResult
deriving Repr

/-- Unmarshal one element of the STK callback metadata item array. -/
def unmarshalStkItem : JValue → Except GoError StkCallbackMetadataItem
  | JValue.jnull => Except.ok ⟨"", JValue.jnull⟩
  | JValue.jobj fs => do
    let nm ← strField fs "Name"
    Except.ok ⟨nm, anyField fs "Value"⟩
  | _ => Except.error "json: cannot unmarshal value into metadata item"

/-- Unmarshal the STK callback metadata item slice. -/
def unmarshalStkItems : JValue → Except GoError (List StkCallbackMetadataItem)
  | JValue.jnull => Except.ok []
  | JValue.jarr xs => xs.mapM unmarshalStkItem
  | _ => Except.error "json: cannot unmarshal value into metadata item slice"

/-- Unmarshal the `CallbackMetadata` object of the STK callback. -/
def unmarshalStkMetadata : JValue → Except GoError StkCallbackMetadata
  | JValue.jnull => Except.ok ⟨[]⟩
  | JValue.jobj fs =>
    match lookupField fs "Item" with
    | none => Except.ok ⟨[]⟩
    | some v => do
      let xs ← unmarshalStkItems v
      Except.ok ⟨xs⟩
  | _ => Except.error "json: cannot unmarshal value into CallbackMetadata"

/-- Unmarshal the `stkCallback` object of the STK callback. -/
def unmarshalStkCallback : JValue → Except GoError StkCallback
  | JValue.jnull => Except.ok ⟨"", "", 0, "", ⟨[]⟩⟩
  | JValue.jobj fs => do
    let mr ← strField fs "MerchantRequestID"
    let co ← strField fs "CheckoutRequestID"
    let rc ← intField fs "ResultCode"
    let rd ← strField fs "ResultDesc"
    let md ← match lookupField fs "CallbackMetadata" with
             | none => Except.ok (⟨[]⟩ : StkCallbackMetadata)
             | some v => unmarshalStkMetadata v
    Except.ok ⟨mr, co, rc, rd, md⟩
  | _ => Except.error "json: cannot unmarshal value into stkCallback"

/-- Unmarshal the `Body` wrapper object of the STK callback. -/
def unmarshalStkBody : JValue → Except GoError STKPushCallbackBody
  | JValue.jnull => Except.ok ⟨⟨"", "", 0, "", ⟨[]⟩⟩⟩
  | JValue.jobj fs =>
    match lookupField fs "stkCallback" with
    | none => Except.ok ⟨⟨"", "", 0, "", ⟨[]⟩⟩⟩
    | some v => do
      let c ← unmarshalStkCallback v
      Except.ok ⟨c⟩
  | _ => Except.error "json: cannot unmarshal value into Body"

/-- Decode of an inbound request body into `STKPushCallbackResponse`, as
`json.NewDecoder(req.Body).Decode` performs it; an empty or syntactically
invalid body is `malformed` and yields an error. -/
def unmarshalSTKPushCallback : Body → Except GoError STKPushCallbackResponse
  | Body.malformed raw => Except.error ("invalid character in " ++ raw)
  | Body.json JValue.jnull => Except.ok ⟨⟨⟨"", "", 0, "", ⟨[]⟩⟩⟩⟩
  | Body.json (JValue.jobj fs) =>
    match lookupField fs "Body" with
    | none => Except.ok ⟨⟨⟨"", "", 0, "", ⟨[]⟩⟩⟩⟩
    | some v => do
      let b ← unmarshalStkBody v
      Except.ok ⟨b⟩
  | Body.json _ => Except.error "json: cannot unmarshal value into STKPushCallbackResponse"

/-- Unmarshal one element of the B2C result parameter array. -/
def unmarshalB2CParameter : JValue → Except GoError B2CResultParameter
  | JValue.jnull => Except.ok ⟨"", JValue.jnull⟩
  | JValue.jobj fs => do
    let k ← strField fs "Key"
    Except.ok ⟨k, anyField fs "Value"⟩
  | _ => Except.error "json: cannot unmarshal value into ResultParameter"

/-- Unmarshal the B2C result parameter slice. -/
def unmarshalB2CParameters : JValue → Except GoError (List B2CResultParameter)
  | JValue.jnull => Except.ok []
  | JValue.jarr xs => xs.mapM unmarshalB2CParameter
  | _ => Except.error "json: cannot unmarshal value into ResultParameter slice"

/-- Unmarshal the `ResultParameters` object of the B2C callback. -/
def unmarshalB2CResultParameters : JValue → Except GoError B2CResultParameters
  | JValue.jnull => Except.ok ⟨[]⟩
  | JValue.jobj fs =>
    match lookupField fs "ResultParameter" with
    | none => Except.ok ⟨[]⟩
    | some v => do
      let xs ← unmarshalB2CParameters v
      Except.ok ⟨xs⟩
  | _ => Except.error "json: cannot unmarshal value into ResultParameters"

/-- Unmarshal the `ReferenceItem` object of the B2C callback. -/
def unmarshalB2CReferenceItem : JValue → Except GoError B2CReferenceItem
  | JValue.jnull => Except.ok ⟨"", ""⟩
  | JValue.jobj fs => do
    let k ← strField fs "Key"
    let v ← strField fs "Value"
    Except.ok ⟨k, v⟩
  | _ => Except.error "json: cannot unmarshal value into ReferenceItem"

/-- Unmarshal the `ReferenceData` object of the B2C callback. -/
def unmarshalB2CReferenceData : JValue → Except GoError B2CReferenceData
  | JValue.jnull => Except.ok ⟨⟨"", ""⟩⟩
  | JValue.jobj fs =>
    match lookupField fs "ReferenceItem" with
    | none => Except.ok ⟨⟨"", ""⟩⟩
    | some v => do
      let it ← unmarshalB2CReferenceItem v
      Except.ok ⟨it⟩
  | _ => Except.error "json: cannot unmarshal value into ReferenceData"

/-- Unmarshal the `Result` object of the B2C callback. -/
def unmarshalB2CResult : JValue → Except GoError B2CResult
  | JValue.jnull => Except.ok ⟨0, 0, "", "", "", "", ⟨[]⟩, ⟨⟨"", ""⟩⟩⟩
  | JValue.jobj fs => do
    let rt ← intField fs "ResultType"
    let rc ← intField fs "ResultCode"
    let rd ← strField fs "ResultDesc"
    let oid ← strField fs "OriginatorConversationID"
    let cid ← strField fs "ConversationID"
    let tid ← strField fs "TransactionID"
    let ps ← match lookupField fs "ResultParameters" with
             | none => Except.ok (⟨[]⟩ : B2CResultParameters)
             | some v => unmarshalB2CResultParameters v
    let refd ← match lookupField fs "ReferenceData" with
               | none => Except.ok (⟨⟨"", ""⟩⟩ : B2CReferenceData)
               | some v => unmarshalB2CReferenceData v
    Except.ok ⟨rt, rc, rd, oid, cid, tid, ps, refd⟩
  | _ => Except.error "json: cannot unmarshal value into Result"

/-- Decode of an inbound request body into `B2CCallbackResponse`, as
`json.NewDecoder(req.Body).Decode` performs it. -/
def unmarshalB2CCallback : Body → Except GoError B2CCallbackResponse
  | Body.malformed raw => Except.error ("invalid character in " ++ raw)
  | Body.json JValue.jnull => Except.ok ⟨⟨0, 0, "", "", "", "", ⟨[]⟩, ⟨⟨"", ""⟩⟩⟩⟩
  | Body.json (JValue.jobj fs) =>
    match lookupField fs "Result" with
    | none => Except.ok ⟨⟨0, 0, "", "", "", "", ⟨[]⟩, ⟨⟨"", ""⟩⟩⟩⟩
    | some v => do
      let r ← unmarshalB2CResult v
      Except.ok ⟨r⟩
  | Body.json _ => Except.error "json: cannot unmarshal value into B2CCallbackResponse"

/-- What one callback handler invocation does to the process: `fatal e`
is `log.Fatalln(err)`, which prints and then calls `os.Exit(1)`,
terminating the entire server process; `printed p` is the normal path that
writes the decoded payload to standard output and returns. -/
inductive HandlerOutcome (α : Type) where
  | fatal : GoError → HandlerOutcome α
  | printed : α → HandlerOutcome α
deriving Repr

/-- The `stkPushCallbackHandler` closure inside `httpServer`: decode the
request body; on a decode error, `log.Fatalln`; otherwise print the payload
and its result code and description. -/
def stkPushCallbackHandler (reqBody : Body) : HandlerOutcome STKPushCallbackResponse :=
  match unmarshalSTKPushCallback reqBody with
  | Except.error e => HandlerOutcome.fatal e
  | Except.ok payload => HandlerOutcome.printed payload

/-- The `b2cRequestCallbackHandler` closure inside `httpServer`: decode the
request body; on a decode error, `log.Fatalln`; otherwise print the payload
and its result code and description. -/
def b2cRequestCallbackHandler (reqBody : Body) : HandlerOutcome B2CCallbackResponse :=
  match unmarshalB2CCallback reqBody with
  | Except.error e => HandlerOutcome.fatal e
  | Except.ok payload => HandlerOutcome.printed payload

/-- State of the correlation registry the specification describes: the set of
registered correlation ids and the recorded outcome per id.  The source
contains no such registry; it is threaded through the embedded operations
unchanged so that the absence of any registration or outcome recording is an
explicit, provable fact rather than an omission. -/
structure Correlator where
  registered : List String
  outcomes : List (String × StkCallback)
deriving Repr

/-- `InitiateSTKPushRequest` together with every correlator interaction the
source performs around it — there is none, so the correlator state passes
through untouched. -/
def Mpesa.initiateSTKWithCorrelator (m : Mpesa) (body : STKPushRequestBody)
    (n : Net) (c : Correlator) :
    (Except GoError STKPushRequestResponse × Net) × Correlator :=
  (m.InitiateSTKPushRequest body n, c)

/-- `InitiateB2CRequest` together with every correlator interaction the
source performs around it — there is none, so the correlator state passes
through untouched. -/
def Mpesa.initiateB2CWithCorrelator (m : Mpesa) (body : B2CRequestBody)
    (n : Net) (c : Correlator) :
    (Except GoError B2CRequestResponse × Net) × Correlator :=
  (m.InitiateB2CRequest body n, c)

/-- Delivery of one STK callback to the process, together with every
outcome-recording step the source performs — there is none: the handler
decodes and prints, and the correlator state passes through untouched. -/
def resolveStkCallback (c : Correlator) (reqBody : Body) :
    HandlerOutcome STKPushCallbackResponse × Correlator :=
  (stkPushCallbackHandler reqBody, c)

/-- An RSA public key, abstracted to its numeric components. -/
structure RSAPublicKey where
  modulus : Int
  exponent : Int
deriving DecidableEq, Repr

/-- The dynamic type behind `cert.PublicKey`, Go's `any`-typed field: an RSA
key or a value of some other key type. -/
inductive CertPublicKey where
  | rsaKey : RSAPublicKey → CertPublicKey
  | otherKey : String → CertPublicKey
deriving DecidableEq, Repr

/-- An X.509 certificate, as far as `GenerateSecurityCredentials` reads
it. -/
structure Certificate where
  publicKey : CertPublicKey
deriving DecidableEq, Repr

/-- A PEM block as returned by `pem.Decode`. -/
structure PemBlock where
  blockType : String
  bytes : List Nat
deriving DecidableEq, Repr

/-- The external collaborators `GenerateSecurityCredentials` calls: the file
system read (`os.Open` plus `io.ReadAll`, whose two failure points both
return the error unchanged and are merged), `pem.Decode` (whose first return
is nil exactly when the result here is `none`), `x509.ParseCertificate`,
`rsa.EncryptPKCS1v15`, and base64 encoding. -/
structure CryptoEnv where
  readFile : String → Except GoError (List Nat)
  pemDecode : List Nat → Option PemBlock
  parseCertificate : List Nat → Except GoError Certificate
  encryptPKCS1v15 : RSAPublicKey → List Nat → Except GoError (List Nat)
  base64Encode : List Nat → String

/-- The UTF-8 bytes of a string, as Go's `[]byte(password)` conversion. -/
def stringToBytes (s : String) : List Nat :=
  s.toUTF8.toList.map (fun b => b.toNat)

/-- Result of running a Go function that may also panic. -/
inductive GoOutcome (α : Type) where
  | ok : α → GoOutcome α
  | err : GoError → GoOutcome α
  | panicked : String → GoOutcome α
deriving Repr

/-- GenerateSecurityCredentials returns the encrypted password using the
public key of the specified environment.  Mirrors the source exactly: the
nil-ness of `pem.Decode`'s block is never checked before `block.Bytes` is
read, and `cert.PublicKey.(*rsa.PublicKey)` is an unchecked type assertion —
each is a runtime panic when it goes wrong. -/
def GenerateSecurityCredentials (env : CryptoEnv) (password : String)
    (isOnProduction : Bool) : GoOutcome String :=
  let path := "./certificates/production.cer"
  let path := if !isOnProduction then "./certificates/sandbox.cer" else path
  match env.readFile path with
  | Except.error e => GoOutcome.err e
  | Except.ok contents =>
    match env.pemDecode contents with
    | none => GoOutcome.panicked "runtime error: invalid memory address or nil pointer dereference"
    | some block =>
      match env.parseCertificate block.bytes with
      | Except.error e => GoOutcome.err e
      | Except.ok cert =>
        match cert.publicKey with
        | CertPublicKey.otherKey k =>
          GoOutcome.panicked ("interface conversion: public key is not RSA but " ++ k)
        | CertPublicKey.rsaKey key =>
          match env.encryptPKCS1v15 key (stringToBytes password) with
          | Except.error e => GoOutcome.err e
          | Except.ok payload => GoOutcome.ok (env.base64Encode payload)

/-- A concrete app instance used by the concrete-input theorems. -/
def cexMpesa : Mpesa := NewMpesa ⟨"key", "secret", "https://sandbox.example"⟩

/-- A well-formed token response body. -/
def cexTokenBody : Body :=
  Body.json (JValue.jobj
    [("access_token", JValue.jstr "tok123"),
     ("expires_in", JValue.jstr "3599")])

/-- A well-formed error body as the token endpoint returns alongside a
non-2xx status. -/
def cexAuthErrorBody : Body :=
  Body.json (JValue.jobj
    [("requestId", JValue.jstr "req-1"),
     ("errorCode", JValue.jstr "404.001.03"),
     ("errorMessage", JValue.jstr "Invalid Access Token")])

/-- A transport whose answer to every request is status 401 with the error
body. -/
def cexNet401 : Net := ⟨fun _ => HttpResult.success 401 cexAuthErrorBody, []⟩

/-- A well-formed error body as the transaction endpoint returns alongside a
non-2xx status. -/
def cexRejectBody : Body :=
  Body.json (JValue.jobj
    [("requestId", JValue.jstr "req-2"),
     ("errorCode", JValue.jstr "500.001.1001"),
     ("errorMessage", JValue.jstr "Unable to lock subscriber")])

/-- A transport that serves the token fetch normally and rejects the
transaction POST with status 500 and an error-coded body. -/
def cexNetRejected : Net :=
  ⟨fun req => if req.method = "GET" then HttpResult.success 200 cexTokenBody
    else HttpResult.success 500 cexRejectBody, []⟩

/-- A concrete STK push request body. -/
def cexStkBody : STKPushRequestBody :=
  ⟨"174379", "cGFzc3dvcmQ=", "20240101010101", "CustomerPayBillOnline", "10",
   "254708666389", "174379", "254708666389", "https://cb.example", "AABBCC",
   "Payment via STK push."⟩

/-- A well-formed acknowledgement body carrying CheckoutRequestID
ws_CO_1. -/
def cexAckBody : Body :=
  Body.json (JValue.jobj
    [("MerchantRequestID", JValue.jstr "29115-34620561-1"),
     ("CheckoutRequestID", JValue.jstr "ws_CO_1"),
     ("ResponseCode", JValue.jstr "0"),
     ("ResponseDescription", JValue.jstr "Accepted"),
     ("CustomerMessage", JValue.jstr "Accepted")])

/-- A transport that serves the token fetch normally and acknowledges the
transaction POST with status 200 and the well-formed acknowledgement. -/
def cexNetAck : Net :=
  ⟨fun req => if req.method = "GET" then HttpResult.success 200 cexTokenBody
    else HttpResult.success 200 cexAckBody, []⟩

/-- A well-formed STK callback payload for correlation id ws_CO_1 with
result code 0. -/
def cexStkCallbackBody : Body :=
  Body.json (JValue.jobj
    [("Body", JValue.jobj
      [("stkCallback", JValue.jobj
        [("MerchantRequestID", JValue.jstr "29115-34620561-1"),
         ("CheckoutRequestID", JValue.jstr "ws_CO_1"),
         ("ResultCode", JValue.jnum 0),
         ("ResultDesc", JValue.jstr "Processed successfully.")])])])

/-- A second, different well-formed STK callback payload for the same
correlation id ws_CO_1, as a duplicate delivery would carry. -/
def cexStkCallbackBody2 : Body :=
  Body.json (JValue.jobj
    [("Body", JValue.jobj
      [("stkCallback", JValue.jobj
        [("MerchantRequestID", JValue.jstr "29115-34620561-1"),
         ("CheckoutRequestID", JValue.jstr "ws_CO_1"),
         ("ResultCode", JValue.jnum 1032),
         ("ResultDesc", JValue.jstr "Request cancelled by user.")])])])

/-- The decoded form of `cexStkCallbackBody`. -/
def cexStkCallbackDecoded : STKPushCallbackResponse :=
  ⟨⟨⟨"29115-34620561-1", "ws_CO_1", 0, "Processed successfully.", ⟨[]⟩⟩⟩⟩

/-- A crypto environment whose certificate file contents are not valid PEM:
`pem.Decode` returns a nil block. -/
def cexEnvNilPem : CryptoEnv :=
  ⟨fun _ => Except.ok [1, 2, 3],
   fun _ => none,
   fun _ => Except.error "unreachable",
   fun _ _ => Except.error "unreachable",
   fun _ => ""⟩

/-- A crypto environment whose certificate parses but carries a non-RSA
public key. -/
def cexEnvNonRsa : CryptoEnv :=
  ⟨fun _ => Except.ok [1, 2, 3],
   fun _ => some ⟨"CERTIFICATE", [9, 9]⟩,
   fun _ => Except.ok ⟨CertPublicKey.otherKey "ecdsa P-256"⟩,
   fun _ _ => Except.error "unreachable",
   fun _ => ""⟩

/-- A transport that serves only the token fetch, successfully. -/
def witNetToken : Net := ⟨fun _ => HttpResult.success 200 cexTokenBody, []⟩

/-- The token struct decoded from `cexTokenBody`. -/
def cexTokenDecoded : MpesaAccessTokenResponse := ⟨"tok123", "3599", "", "", ""⟩

/-- A transport on which every exchange fails at the network level. -/
def cexNetDown : Net := ⟨fun _ => HttpResult.networkError "connection refused", []⟩

/-- A concrete B2C request body. -/
def cexB2CBody : B2CRequestBody :=
  ⟨"initiator", "credential", "BusinessPayment", "1", "600983", "254708666389",
   "Payment to customer", "https://timeout.example", "https://result.example",
   "Payment to customer"⟩

end MpesaGo

namespace MpesaGo

/-- Unfolding of `generateAccessToken`: it issues exactly the one request
`tokenRequest m` and its result is a pure function of the transport answer,
with the HTTP status ignored. -/
theorem generateAccessToken_eq (m : Mpesa) (n : Net) :
    m.generateAccessToken n =
      ((match n.oracle (tokenRequest m) with
        | HttpResult.networkError e => Except.error e
        | HttpResult.readError _ e => Except.error e
        | HttpResult.success _ b => unmarshalAccessToken b),
       { n with sent := n.sent ++ [tokenRequest m] }) := by
  simp only [Mpesa.generateAccessToken, Mpesa.makeRequest, Net.send]
  cases n.oracle (tokenRequest m) with
  | networkError e => rfl
  | readError s e => rfl
  | success s b =>
    dsimp only
    cases unmarshalAccessToken b <;> rfl

/-- Unfolding of `InitiateSTKPushRequest`: one token fetch, then (only if
the token fetch succeeded) one transaction POST, the result again a pure
function of the transport answers with statuses ignored. -/
theorem initiateSTK_eq (m : Mpesa) (b : STKPushRequestBody) (n : Net) :
    m.InitiateSTKPushRequest b n =
      match (match n.oracle (tokenRequest m) with
             | HttpResult.networkError e => Except.error e
             | HttpResult.readError _ e => Except.error e
             | HttpResult.success _ tb => unmarshalAccessToken tb) with
      | Except.error e =>
        (Except.error e, { n with sent := n.sent ++ [tokenRequest m] })
      | Except.ok tok =>
        ((match n.oracle (stkRequest m b tok) with
          | HttpResult.networkError e => Except.error e
          | HttpResult.readError _ e => Except.error e
          | HttpResult.success _ rb => unmarshalSTKPushResponse rb),
         { n with sent := n.sent ++ [tokenRequest m, stkRequest m b tok] }) := by
  have hg := generateAccessToken_eq m n
  simp only [Mpesa.InitiateSTKPushRequest, hg, Mpesa.makeRequest, Net.send]
  cases n.oracle (tokenRequest m) with
  | networkError e => rfl
  | readError s e => rfl
  | success s tb =>
    dsimp only
    cases unmarshalAccessToken tb with
    | error e => rfl
    | ok tok =>
      dsimp only [stkRequest, newRequest, HttpRequest.setHeader]
      cases n.oracle
          ⟨"POST", m.baseURL ++ "/mpesa/stkpush/v1/processrequest",
           setHeaderList
             (setHeaderList [] "Content-Type" "application/json")
             "Authorization" ("Bearer " ++ tok.accessToken), none,
           some (marshalSTKPushRequestBody b)⟩ with
      | networkError e => simp [List.append_assoc]
      | readError s2 e => simp [List.append_assoc]
      | success s2 rb =>
        dsimp only
        cases unmarshalSTKPushResponse rb <;> simp [List.append_assoc]

/-- Unfolding of `setupHttpRequestWithAuth`: one token fetch, and on success
the request with Content-Type and Authorization Bearer headers set. -/
theorem setupHttpRequestWithAuth_eq (m : Mpesa) (method url : String)
    (body : Option JValue) (n : Net) :
    m.setupHttpRequestWithAuth method url body n =
      match (match n.oracle (tokenRequest m) with
             | HttpResult.networkError e => Except.error e
             | HttpResult.readError _ e => Except.error e
             | HttpResult.success _ tb => unmarshalAccessToken tb) with
      | Except.error e =>
        (Except.error e, { n with sent := n.sent ++ [tokenRequest m] })
      | Except.ok tok =>
        (Except.ok (((newRequest method url body).setHeader "Content-Type"
            "application/json").setHeader "Authorization"
            ("Bearer " ++ tok.accessToken)),
         { n with sent := n.sent ++ [tokenRequest m] }) := by
  have hg := generateAccessToken_eq m n
  simp only [Mpesa.setupHttpRequestWithAuth, hg]
  cases n.oracle (tokenRequest m) with
  | networkError e => rfl
  | readError s e => rfl
  | success s tb =>
    dsimp only
    cases unmarshalAccessToken tb <;> rfl

/-- Unfolding of `InitiateB2CRequest`: one token fetch via
`setupHttpRequestWithAuth`, then (only on success) one transaction POST,
statuses ignored. -/
theorem initiateB2C_eq (m : Mpesa) (b : B2CRequestBody) (n : Net) :
    m.InitiateB2CRequest b n =
      match (match n.oracle (tokenRequest m) with
             | HttpResult.networkError e => Except.error e
             | HttpResult.readError _ e => Except.error e
             | HttpResult.success _ tb => unmarshalAccessToken tb) with
      | Except.error e =>
        (Except.error e, { n with sent := n.sent ++ [tokenRequest m] })
      | Except.ok tok =>
        ((match n.oracle (b2cRequest m b tok) with
          | HttpResult.networkError e => Except.error e
          | HttpResult.readError _ e => Except.error e
          | HttpResult.success _ rb => unmarshalB2CResponse rb),
         { n with sent := n.sent ++ [tokenRequest m, b2cRequest m b tok] }) := by
  have hs := setupHttpRequestWithAuth_eq m "POST"
    (m.baseURL ++ "/mpesa/b2c/v1/paymentrequest")
    (some (marshalB2CRequestBody b)) n
  simp only [Mpesa.InitiateB2CRequest, hs, Mpesa.makeRequest, Net.send]
  cases n.oracle (tokenRequest m) with
  | networkError e => rfl
  | readError s e => rfl
  | success s tb =>
    dsimp only
    cases unmarshalAccessToken tb with
    | error e => rfl
    | ok tok =>
      dsimp only [b2cRequest, newRequest, HttpRequest.setHeader]
      cases n.oracle
          ⟨"POST", m.baseURL ++ "/mpesa/b2c/v1/paymentrequest",
           setHeaderList
             (setHeaderList [] "Content-Type" "application/json")
             "Authorization" ("Bearer " ++ tok.accessToken), none,
           some (marshalB2CRequestBody b)⟩ with
      | networkError e => simp [List.append_assoc]
      | readError s2 e => simp [List.append_assoc]
      | success s2 rb =>
        dsimp only
        cases unmarshalB2CResponse rb <;> simp [List.append_assoc]

/-- C1: the claim that the initiator registers the returned correlation id
with the Callback Correlator before returning fails on the code: on a
concrete transport that acknowledges the STK push with CheckoutRequestID
ws_CO_1, the initiator returns the well-formed acknowledgement, yet ws_CO_1
is not in the registry — the source performs no registration at all. -/
theorem claim_C1_counterexample :
    (cexMpesa.initiateSTKWithCorrelator cexStkBody cexNetAck ⟨[], []⟩).1.1 =
      Except.ok ⟨"29115-34620561-1", "ws_CO_1", "0", "Accepted", "Accepted",
        "", "", ""⟩ ∧
    "ws_CO_1" ∉
      (cexMpesa.initiateSTKWithCorrelator cexStkBody cexNetAck ⟨[], []⟩).2.registered :=
  ⟨rfl, fun h => nomatch h⟩

/-- C1 (amended): for both transaction initiations, the initiator returns
the remote acknowledgement directly to its caller and registers nothing: the
correlator state is untouched, because no Callback Correlator exists in the
code. -/
theorem claim_C1_amended (m : Mpesa) (stk : STKPushRequestBody)
    (b2c : B2CRequestBody) (n : Net) (c : Correlator) :
    (m.initiateSTKWithCorrelator stk n c).2 = c ∧
    (m.initiateSTKWithCorrelator stk n c).1 = m.InitiateSTKPushRequest stk n ∧
    (m.initiateB2CWithCorrelator b2c n c).2 = c ∧
    (m.initiateB2CWithCorrelator b2c n c).1 = m.InitiateB2CRequest b2c n :=
  ⟨rfl, rfl, rfl, rfl⟩

/-- C2: the claim that the first resolve call for a correlation id sets the
recorded outcome fails on the code: delivering a well-formed callback for
ws_CO_1 decodes and prints it, yet afterwards no outcome is recorded for
ws_CO_1 — the outcome map is still empty. -/
theorem claim_C2_counterexample :
    (resolveStkCallback ⟨[], []⟩ cexStkCallbackBody).1 =
      HandlerOutcome.printed cexStkCallbackDecoded ∧
    List.lookup "ws_CO_1"
      (resolveStkCallback ⟨[], []⟩ cexStkCallbackBody).2.outcomes = none ∧
    (resolveStkCallback ⟨[], []⟩ cexStkCallbackBody).2.outcomes = [] :=
  ⟨rfl, rfl, rfl⟩

/-- C2 (amended): the callback path records no outcome for any correlation
id: any sequence of deliveries — first call, duplicates, different payloads
— leaves the correlator state exactly as it was, and each delivery is
handled independently by the same decode-and-print handler, so nothing is
ever first-writer-wins because nothing is ever written. -/
theorem claim_C2_amended (c : Correlator) (bs : List Body) (b : Body) :
    bs.foldl (fun st rb => (resolveStkCallback st rb).2) c = c ∧
    (resolveStkCallback c b).1 = stkPushCallbackHandler b := by
  refine ⟨?_, rfl⟩
  induction bs generalizing c with
  | nil => rfl
  | cons hd tl ih => exact ih c

/-- C4: the claim that `generateAccessToken` returns an error for every
non-2xx response fails on the code: on a transport answering 401 with a
well-formed error body, the function returns the parsed struct with a nil
error, the remote error code and message sitting inside the struct. -/
theorem claim_C4_counterexample :
    cexNet401.oracle (tokenRequest cexMpesa) =
      HttpResult.success 401 cexAuthErrorBody ∧
    (cexMpesa.generateAccessToken cexNet401).1 =
      Except.ok ⟨"", "", "req-1", "404.001.03", "Invalid Access Token"⟩ :=
  ⟨rfl, rfl⟩

/-- C4 (amended): `generateAccessToken` performs Basic authentication with
the consumer key and secret against the token endpoint, and its result is a
pure function of the transport answer in which the HTTP status is ignored:
transport failures and bodies that fail to unmarshal are errors, and any
response with a well-formed JSON body — whatever its status — is returned
as a parsed token struct with a nil error. -/
theorem claim_C4_amended (m : Mpesa) (n : Net) :
    (tokenRequest m).method = "GET" ∧
    (tokenRequest m).url =
      m.baseURL ++ "/oauth/v1/generate?grant_type=client_credentials" ∧
    (tokenRequest m).basicAuth = some (m.consumerKey, m.consumerSecret) ∧
    (m.generateAccessToken n).1 =
      (match n.oracle (tokenRequest m) with
       | HttpResult.networkError e => Except.error e
       | HttpResult.readError _ e => Except.error e
       | HttpResult.success _ b => unmarshalAccessToken b) ∧
    (m.generateAccessToken n).2.sent = n.sent ++ [tokenRequest m] := by
  refine ⟨rfl, rfl, rfl, ?_, ?_⟩ <;> rw [generateAccessToken_eq]

/-- C5: the claim that a non-2xx or error-coded JSON body yields an
InitiationError fails on the code: on a transport rejecting the STK POST
with status 500 and an error-coded body, the initiation returns a parsed
acknowledgement struct with a nil error, the remote code and message sitting
inside the struct. -/
theorem claim_C5_counterexample :
    cexNetRejected.oracle (stkRequest cexMpesa cexStkBody cexTokenDecoded) =
      HttpResult.success 500 cexRejectBody ∧
    (cexMpesa.InitiateSTKPushRequest cexStkBody cexNetRejected).1 =
      Except.ok ⟨"", "", "", "", "", "req-2", "500.001.1001",
        "Unable to lock subscriber"⟩ :=
  ⟨rfl, rfl⟩

/-- C5 (amended): for both initiations the result is a pure function of the
two transport answers: a network failure at either exchange surfaces as that
error, a body that fails to unmarshal surfaces as the decode error, and any
response whose body unmarshals — regardless of HTTP status or error-coded
fields — is returned as a successful acknowledgement struct; no
rejected-vs-protocol classification exists. -/
theorem claim_C5_amended (m : Mpesa) (stk : STKPushRequestBody)
    (b2c : B2CRequestBody) (n : Net) :
    ((m.InitiateSTKPushRequest stk n).1 =
      match (match n.oracle (tokenRequest m) with
             | HttpResult.networkError e => Except.error e
             | HttpResult.readError _ e => Except.error e
             | HttpResult.success _ tb => unmarshalAccessToken tb) with
      | Except.error e => Except.error e
      | Except.ok tok =>
        match n.oracle (stkRequest m stk tok) with
        | HttpResult.networkError e => Except.error e
        | HttpResult.readError _ e => Except.error e
        | HttpResult.success _ rb => unmarshalSTKPushResponse rb) ∧
    ((m.InitiateB2CRequest b2c n).1 =
      match (match n.oracle (tokenRequest m) with
             | HttpResult.networkError e => Except.error e
             | HttpResult.readError _ e => Except.error e
             | HttpResult.success _ tb => unmarshalAccessToken tb) with
      | Except.error e => Except.error e
      | Except.ok tok =>
        match n.oracle (b2cRequest m b2c tok) with
        | HttpResult.networkError e => Except.error e
        | HttpResult.readError _ e => Except.error e
        | HttpResult.success _ rb => unmarshalB2CResponse rb) := by
  constructor
  · rw [initiateSTK_eq]
    cases n.oracle (tokenRequest m) with
    | networkError e => rfl
    | readError s e => rfl
    | success s tb =>
      dsimp only
      cases unmarshalAccessToken tb <;> rfl
  · rw [initiateB2C_eq]
    cases n.oracle (tokenRequest m) with
    | networkError e => rfl
    | readError s e => rfl
    | success s tb =>
      dsimp only
      cases unmarshalAccessToken tb <;> rfl

/-- C6: no hidden retries and no token caching — the request trace of a
token fetch is exactly one token request, the trace of each initiation is
exactly one fresh token request followed by (when the token fetch
succeeded) exactly one transaction POST, and the result of each initiation
is the exact pure function of the two transport answers in which every
network failure, body-read failure and malformed-JSON decode error from
either exchange is returned unchanged, and immediately, to the direct
caller. -/
theorem claim_C6 (m : Mpesa) (stk : STKPushRequestBody)
    (b2c : B2CRequestBody) (n : Net) :
    (m.generateAccessToken n).2.sent = n.sent ++ [tokenRequest m] ∧
    ((m.InitiateSTKPushRequest stk n).2.sent =
      match (match n.oracle (tokenRequest m) with
             | HttpResult.networkError e => Except.error e
             | HttpResult.readError _ e => Except.error e
             | HttpResult.success _ tb => unmarshalAccessToken tb) with
      | Except.error _ => n.sent ++ [tokenRequest m]
      | Except.ok tok => n.sent ++ [tokenRequest m, stkRequest m stk tok]) ∧
    ((m.InitiateB2CRequest b2c n).2.sent =
      match (match n.oracle (tokenRequest m) with
             | HttpResult.networkError e => Except.error e
             | HttpResult.readError _ e => Except.error e
             | HttpResult.success _ tb => unmarshalAccessToken tb) with
      | Except.error _ => n.sent ++ [tokenRequest m]
      | Except.ok tok => n.sent ++ [tokenRequest m, b2cRequest m b2c tok]) ∧
    ((m.InitiateSTKPushRequest stk n).1 =
      match (match n.oracle (tokenRequest m) with
             | HttpResult.networkError e => Except.error e
             | HttpResult.readError _ e => Except.error e
             | HttpResult.success _ tb => unmarshalAccessToken tb) with
      | Except.error e => Except.error e
      | Except.ok tok =>
        match n.oracle (stkRequest m stk tok) with
        | HttpResult.networkError e => Except.error e
        | HttpResult.readError _ e => Except.error e
        | HttpResult.success _ rb => unmarshalSTKPushResponse rb) ∧
    ((m.InitiateB2CRequest b2c n).1 =
      match (match n.oracle (tokenRequest m) with
             | HttpResult.networkError e => Except.error e
             | HttpResult.readError _ e => Except.error e
             | HttpResult.success _ tb => unmarshalAccessToken tb) with
      | Except.error e => Except.error e
      | Except.ok tok =>
        match n.oracle (b2cRequest m b2c tok) with
        | HttpResult.networkError e => Except.error e
        | HttpResult.readError _ e => Except.error e
        | HttpResult.success _ rb => unmarshalB2CResponse rb) := by
  refine ⟨?_, ?_, ?_, ?_, ?_⟩
  · rw [generateAccessToken_eq]
  · rw [initiateSTK_eq]
    cases n.oracle (tokenRequest m) with
    | networkError e => rfl
    | readError s e => rfl
    | success s tb =>
      dsimp only
      cases unmarshalAccessToken tb <;> rfl
  · rw [initiateB2C_eq]
    cases n.oracle (tokenRequest m) with
    | networkError e => rfl
    | readError s e => rfl
    | success s tb =>
      dsimp only
      cases unmarshalAccessToken tb <;> rfl
  · rw [initiateSTK_eq]
    cases n.oracle (tokenRequest m) with
    | networkError e => rfl
    | readError s e => rfl
    | success s tb =>
      dsimp only
      cases unmarshalAccessToken tb <;> rfl
  · rw [initiateB2C_eq]
    cases n.oracle (tokenRequest m) with
    | networkError e => rfl
    | readError s e => rfl
    | success s tb =>
      dsimp only
      cases unmarshalAccessToken tb <;> rfl

/-- C7: the claim that the default timeout is caller-supplied fails on the
code: `NewMpesa` gives two apps built from entirely different options the
same 10-second client timeout — the timeout is a constant inside `NewMpesa`
and `MpesaOpts` has no field to supply it. -/
theorem claim_C7_counterexample :
    (NewMpesa ⟨"a", "b", "https://one.example"⟩).client.timeout =
      10 * timeSecond ∧
    (NewMpesa ⟨"x", "y", "https://two.example"⟩).client.timeout =
      10 * timeSecond :=
  ⟨rfl, rfl⟩

/-- C7 (amended): the consumer key, consumer secret and base URL are taken
verbatim from the caller-supplied options, while the HTTP client timeout is
the hardcoded constant of 10 seconds, for every caller. -/
theorem claim_C7_amended (opts : MpesaOpts) :
    NewMpesa opts =
      ⟨opts.consumerKey, opts.consumerSecret, opts.baseURL,
       ⟨10 * timeSecond⟩⟩ :=
  rfl

/-- C8: `GenerateSecurityCredentials` panics rather than returning an error
on two inputs: when the certificate file contents are not valid PEM (the nil
block from `pem.Decode` is dereferenced) and when the parsed certificate
carries a non-RSA public key (the unchecked type assertion fails). -/
theorem claim_C8 (env : CryptoEnv) (password : String)
    (isOnProduction : Bool) :
    (∀ contents,
      env.readFile (if !isOnProduction then "./certificates/sandbox.cer"
        else "./certificates/production.cer") = Except.ok contents →
      env.pemDecode contents = none →
      GenerateSecurityCredentials env password isOnProduction =
        GoOutcome.panicked
          "runtime error: invalid memory address or nil pointer dereference") ∧
    (∀ contents block cert k,
      env.readFile (if !isOnProduction then "./certificates/sandbox.cer"
        else "./certificates/production.cer") = Except.ok contents →
      env.pemDecode contents = some block →
      env.parseCertificate block.bytes = Except.ok cert →
      cert.publicKey = CertPublicKey.otherKey k →
      GenerateSecurityCredentials env password isOnProduction =
        GoOutcome.panicked
          ("interface conversion: public key is not RSA but " ++ k)) := by
  constructor
  · intro contents h1 h2
    simp only [Bool.not_eq_true'] at h1
    simp [GenerateSecurityCredentials, h1, h2]
  · intro contents block cert k h1 h2 h3 h4
    simp only [Bool.not_eq_true'] at h1
    simp [GenerateSecurityCredentials, h1, h2, h3, h4]

/-- C8 witness: concrete environments exhibiting both panics — one whose
file contents fail PEM decoding, one whose certificate carries an ECDSA
key. -/
theorem claim_C8_witness :
    GenerateSecurityCredentials cexEnvNilPem "pw" true =
      GoOutcome.panicked
        "runtime error: invalid memory address or nil pointer dereference" ∧
    GenerateSecurityCredentials cexEnvNonRsa "pw" false =
      GoOutcome.panicked
        "interface conversion: public key is not RSA but ecdsa P-256" :=
  ⟨(claim_C8 cexEnvNilPem "pw" true).1 [1, 2, 3] rfl rfl,
   (claim_C8 cexEnvNonRsa "pw" false).2 [1, 2, 3] ⟨"CERTIFICATE", [9, 9]⟩
     ⟨CertPublicKey.otherKey "ecdsa P-256"⟩ "ecdsa P-256" rfl rfl rfl rfl⟩

/-- C9: for every inbound callback request whose body fails to decode into
the expected shape, each of the two handlers reaches `log.Fatalln` — the
`fatal` outcome, which terminates the entire server process. -/
theorem claim_C9 (reqBody : Body) (e : GoError) :
    (unmarshalSTKPushCallback reqBody = Except.error e →
      stkPushCallbackHandler reqBody = HandlerOutcome.fatal e) ∧
    (unmarshalB2CCallback reqBody = Except.error e →
      b2cRequestCallbackHandler reqBody = HandlerOutcome.fatal e) := by
  constructor <;> intro h <;>
    simp [stkPushCallbackHandler, b2cRequestCallbackHandler, h]

/-- C9 witness: a syntactically malformed body drives both handlers to the
process-terminating branch. -/
theorem claim_C9_witness :
    stkPushCallbackHandler (Body.malformed "not json") =
      HandlerOutcome.fatal "invalid character in not json" ∧
    b2cRequestCallbackHandler (Body.malformed "not json") =
      HandlerOutcome.fatal "invalid character in not json" :=
  ⟨(claim_C9 (Body.malformed "not json")
      "invalid character in not json").1 rfl,
   (claim_C9 (Body.malformed "not json")
      "invalid character in not json").2 rfl⟩

/-- C10: the helper `setupHttpRequestWithAuth` is observationally equivalent
to the request construction done inline by `InitiateSTKPushRequest`: at
method POST the two are equal outright, and for every method the helper
issues the same single token fetch, fails exactly when the token fetch
fails, and otherwise produces the request whose Content-Type is
application/json and whose Authorization header is Bearer followed by the
fetched access token. -/
theorem claim_C10 (m : Mpesa) (url : String) (body : Option JValue)
    (n : Net) :
    m.setupHttpRequestWithAuth "POST" url body n =
      m.stkInlineRequestSetup url body n ∧
    (∀ method,
      (m.setupHttpRequestWithAuth method url body n).2 =
        (m.generateAccessToken n).2) ∧
    (∀ method e, (m.generateAccessToken n).1 = Except.error e →
      (m.setupHttpRequestWithAuth method url body n).1 = Except.error e) ∧
    (∀ method tok, (m.generateAccessToken n).1 = Except.ok tok →
      (m.setupHttpRequestWithAuth method url body n).1 =
        Except.ok ⟨method, url,
          [("Content-Type", "application/json"),
           ("Authorization", "Bearer " ++ tok.accessToken)], none, body⟩) := by
  refine ⟨rfl, ?_, ?_, ?_⟩
  · intro method
    rw [setupHttpRequestWithAuth_eq, generateAccessToken_eq]
    cases n.oracle (tokenRequest m) with
    | networkError e => rfl
    | readError s e => rfl
    | success s tb =>
      dsimp only
      cases unmarshalAccessToken tb <;> rfl
  · intro method e h
    rw [generateAccessToken_eq] at h
    dsimp only at h
    rw [setupHttpRequestWithAuth_eq, h]
  · intro method tok h
    rw [generateAccessToken_eq] at h
    dsimp only at h
    rw [setupHttpRequestWithAuth_eq, h]
    rfl

/-- C10 witness: at a concrete method, URL and transport the helper
produces exactly the bearer-authenticated request on a successful token
fetch and surfaces the network error on a failed one. -/
theorem claim_C10_witness :
    (cexMpesa.setupHttpRequestWithAuth "PUT" "u" none witNetToken).1 =
      Except.ok ⟨"PUT", "u",
        [("Content-Type", "application/json"),
         ("Authorization", "Bearer tok123")], none, none⟩ ∧
    (cexMpesa.setupHttpRequestWithAuth "PUT" "u" none cexNetDown).1 =
      Except.error "connection refused" :=
  ⟨(claim_C10 cexMpesa "u" none witNetToken).2.2.2 "PUT" cexTokenDecoded rfl,
   (claim_C10 cexMpesa "u" none cexNetDown).2.2.1 "PUT"
     "connection refused" rfl⟩

end MpesaGo
